import Mathlib

/-!
Shallow embedding of `src/plotter_main.py` (a PySide2/matplotlib plotting GUI).

The embedding models the data path of the program: `read_data` (a wrapper
around `np.genfromtxt(fname, dtype='float64')`), the table model
`CustomTableModel` (windowing of a 2D array around a user-chosen center
index, with Python slice semantics), `Widget.plot` (the contour-plot call),
and the three user actions `Widget.replot`, `Widget.table_recenter` and
`Widget.new_csv` as state transformers over the widget's attributes.

Machine floats are modelled as `Option ℚ`: `some q` is an ordinary float
value and `none` is `nan` (the value `np.genfromtxt` produces for a
non-numeric field).  Python exceptions are modelled with `Except`/an error
field.  Qt rendering is abstracted to a trace of abstract steps.
-/

deriving instance DecidableEq for Except

namespace Plotter

/-- Python-level runtime errors the modelled code can raise. -/
inductive PyErr where
  | typeError : PyErr
  | valueError : PyErr
  | indexError : PyErr
  | attributeError : String → PyErr
deriving DecidableEq, Repr

/-- Normalisation of one bound of a Python slice `a[lo:hi]` (step `1`) over a
sequence of length `n`: a negative index counts from the end (and clamps at
`0`), a nonnegative index clamps at `n`.  This is CPython's
`slice.indices` for positive step. -/
def pyIdx (i : Int) (n : Nat) : Nat :=
  if i < 0 then (i + n).toNat else min i.toNat n

/-- Python slice `xs[lo:hi]` (step `1`) on a list. -/
def pySlice (xs : List α) (lo hi : Int) : List α :=
  (xs.take (pyIdx hi xs.length)).drop (pyIdx lo xs.length)

/-- A 2D numpy array: the rows, together with the shape bookkeeping numpy
carries (`nrows = shape[0]`, `ncols = shape[1]`); numpy keeps the column
count of a slice even when the row slice is empty, so the shape is tracked
explicitly alongside the row data. -/
structure Arr (α : Type) where
  nrows : Nat
  ncols : Nat
  rows : List (List α)
deriving DecidableEq, Repr

/-- Numpy 2D slicing `a[lr:ur, lc:uc]` with Python slice semantics on both
axes; the resulting shape is what numpy reports for such a slice. -/
def Arr.slice2 (a : Arr α) (lr ur lc uc : Int) : Arr α :=
  { nrows := pyIdx ur a.nrows - pyIdx lr a.nrows
    ncols := pyIdx uc a.ncols - pyIdx lc a.ncols
    rows := (pySlice a.rows lr ur).map (fun row => pySlice row lc uc) }

/-- Value of a list of decimal digit characters, `none` if any character is
not a digit (the empty list has value `0`, callers guard emptiness). -/
def digitsOpt (cs : List Char) : Option Nat :=
  cs.foldl
    (fun acc c =>
      acc.bind (fun a => if c.isDigit then some (a * 10 + (c.toNat - 48)) else none))
    (some 0)

/-- Unsigned decimal mantissa `digits[.digits]`, returned as the pair
(numerator scaled by `10 ^ fractionLength`, fractionLength); `none` when the
text is not of that form (at least one digit required). -/
def parseMantissa (cs : List Char) : Option (Nat × Nat) :=
  match cs.splitOn '.' with
  | [ip] =>
    if ip.isEmpty then none else (digitsOpt ip).map (fun n => (n, 0))
  | [ip, fp] =>
    if ip.isEmpty && fp.isEmpty then none
    else
      match digitsOpt ip, digitsOpt fp with
      | some i, some f => some (i * 10 ^ fp.length + f, fp.length)
      | _, _ => none
  | _ => none

/-- Exact rational value of the decimal literal
`sgn * (mNum / 10 ^ fLen) * 10 ^ e`. -/
def decValue (sgn : Int) (mNum : Nat) (fLen : Nat) (e : Int) : ℚ :=
  if 0 ≤ e then mkRat (sgn * mNum * 10 ^ e.toNat) (10 ^ fLen)
  else mkRat (sgn * mNum) (10 ^ fLen * 10 ^ (-e).toNat)

/-- Optional leading sign of a numeric literal. -/
def parseSign : List Char → Int × List Char
  | '-' :: cs => (-1, cs)
  | '+' :: cs => (1, cs)
  | cs => (1, cs)

/-- Surrounding whitespace is ignored by Python's `int` and `float`. -/
def stripWS (cs : List Char) : List Char :=
  ((cs.dropWhile Char.isWhitespace).reverse.dropWhile Char.isWhitespace).reverse

/-- Signed decimal integer literal, as accepted by Python's `int`. -/
def parseIntPy (s : String) : Option Int :=
  match parseSign (stripWS s.toList) with
  | (sgn, cs) =>
    if cs.isEmpty then none
    else (digitsOpt cs).map (fun n => sgn * (n : Nat))

/-- Float conversion of one text field, as performed by Python's `float` and
by `np.genfromtxt`'s float converter, restricted to finite decimal literals
`[+-]digits[.digits][e[+-]digits]`; `none` means the field is not such a
literal (for `np.genfromtxt` that field becomes `nan`). -/
def parseFloat (s : String) : Option ℚ :=
  match parseSign (stripWS s.toList) with
  | (sgn, cs) =>
    match cs.splitOn 'e' with
    | [m] => (parseMantissa m).map (fun p => decValue sgn p.1 p.2 0)
    | [m, ex] =>
      match parseMantissa m, parseIntPy (String.mk ex) with
      | some p, some e => some (decValue sgn p.1 p.2 e)
      | _, _ => none
    | _ => none

/-- Embedding of `read_data` (`src/plotter_main.py` lines 15-21), which is
`np.genfromtxt(fname, dtype='float64')`.  The file is given already split
into whitespace-separated tokens per line (`np.genfromtxt` with
`delimiter=None`); blank lines are skipped, every remaining line becomes a
row, each token is coerced to a float with non-numeric tokens becoming
`nan` (`none`), and inconsistent column counts raise `ValueError` as
`np.genfromtxt` does.  Note the function does NOT drop rows that contain
non-numeric text, despite its own docstring. -/
def read_data (lines : List (List String)) : Except PyErr (Arr (Option ℚ)) :=
  let ls := lines.filter (fun l => !l.isEmpty)
  let n := (ls.headD []).length
  if ls.all (fun l => l.length = n) then
    .ok { nrows := ls.length, ncols := n, rows := ls.map (fun l => l.map parseFloat) }
  else
    .error .valueError

/-- Embedding of `CustomTableModel` after `__init__` has run
(`src/plotter_main.py` lines 27-40): the (possibly windowed) `tabledata`,
the stored `tableindex`, the four windowing attributes — `none` when the
constructor's `pass` branch left them unassigned — and the
`row_count`/`column_count` taken from `np.shape` of `tabledata`. -/
structure TableModel (α : Type) where
  tabledata : Arr α
  tableindex : Option (Int × Int)
  lower_row : Option Int
  upper_row : Option Int
  lower_col : Option Int
  upper_col : Option Int
  row_count : Nat
  column_count : Nat
deriving DecidableEq, Repr

/-- Embedding of `CustomTableModel.__init__` (`src/plotter_main.py` lines
27-40).  When the data has fewer than 101 rows the windowing branch is
skipped (`pass`) and the four window attributes stay unassigned.
Otherwise the bounds `tableindex[1] ∓ 50` / `tableindex[0] ∓ 50` are
computed — subscripting raises `TypeError` when `tableindex` is `None` —
and `tabledata` is the Python slice
`data[lower_row:upper_row, lower_col:upper_col]`. -/
def customTableModelInit (data : Arr α) (tableindex : Option (Int × Int)) :
    Except PyErr (TableModel α) :=
  if data.nrows < 101 then
    .ok { tabledata := data, tableindex := tableindex
          lower_row := none, upper_row := none, lower_col := none, upper_col := none
          row_count := data.nrows, column_count := data.ncols }
  else
    match tableindex with
    | none => .error .typeError
    | some (c, r) =>
      let lr := r - 50
      let ur := r + 50
      let lc := c - 50
      let uc := c + 50
      let td := data.slice2 lr ur lc uc
      .ok { tabledata := td, tableindex := some (c, r)
            lower_row := some lr, upper_row := some ur
            lower_col := some lc, upper_col := some uc
            row_count := td.nrows, column_count := td.ncols }

/-- The two values of `QtCore.Qt.Orientation` a header query can carry. -/
inductive Orientation where
  | horizontal : Orientation
  | vertical : Orientation
deriving DecidableEq, Repr

/-- Item-data roles as far as `headerData` distinguishes them: the display
role versus every other role. -/
inductive Role where
  | display : Role
  | other : Role
deriving DecidableEq, Repr

/-- Python's `list(range(lo, hi))`. -/
def rangeList (lo hi : Int) : List Int :=
  (List.range (hi - lo).toNat).map (fun k => lo + k)

/-- Embedding of `CustomTableModel.headerData` (`src/plotter_main.py` lines
48-58).  A non-display role returns `None`; otherwise the code reads
`self.lower_col`/`self.upper_col` (horizontal) or
`self.lower_row`/`self.upper_row` (vertical) — an `AttributeError` when the
constructor never assigned them — builds `list(range(lower, upper))` and
indexes it with the section (an `IndexError` when out of range). -/
def headerData (m : TableModel α) (sec : Nat) (o : Orientation) (role : Role) :
    Except PyErr (Option Int) :=
  match role with
  | .other => .ok none
  | .display =>
    match o with
    | .horizontal =>
      match m.lower_col, m.upper_col with
      | some lc, some uc =>
        match (rangeList lc uc).get? sec with
        | some v => .ok (some v)
        | none => .error .indexError
      | _, _ => .error (.attributeError "lower_col")
    | .vertical =>
      match m.lower_row, m.upper_row with
      | some lr, some ur =>
        match (rangeList lr ur).get? sec with
        | some v => .ok (some v)
        | none => .error .indexError
      | _, _ => .error (.attributeError "lower_row")

/-- The arguments the contour-plot render in `Widget.plot` passes to the
plotting library: `x`/`y`/`z` are the three positional arguments of
`ax.contourf`, and `vmin`/`vmax` are the two arguments the code feeds to
`MaxNLocator(nbins=15).tick_values` to compute the contour levels. -/
structure PlotCall (α : Type) where
  x : List α
  y : List α
  z : Arr α
  vmin : α
  vmax : α
deriving DecidableEq, Repr

/-- Embedding of `Widget.plot` (`src/plotter_main.py` lines 208-219) on a
numeric grid.  Line 210 first computes `data[1:, 1:].min()` and
`data[1:, 1:].max()` (a `ValueError` from numpy when that sub-grid is
empty); line 214 then calls
`ax.contourf(data[1:, 0], data[0, 1:], data[1:, 1:], levels=levels, ...)`. -/
def plot (data : Arr ℚ) : Except PyErr (PlotCall ℚ) :=
  match (data.slice2 1 data.nrows 1 data.ncols).rows.flatten with
  | [] => .error .valueError
  | v :: vs =>
    .ok { x := (pySlice data.rows 1 data.nrows).map (fun row => row.headD 0)
          y := pySlice (data.rows.headD []) 1 data.ncols
          z := data.slice2 1 data.nrows 1 data.ncols
          vmin := vs.foldl min v
          vmax := vs.foldl max v }

/-- The widget attributes the three user actions read and write:
`self.data` (the loaded array), `self.shape`, `self.tableindex` and
`self.model`.  The `Widget` class never assigns `self.num_files`, and
`self.plot` is the bound `plot` method (never replaced by an attribute), so
neither appears as state. -/
structure WidgetState where
  data : Arr (Option ℚ)
  shape : Nat × Nat
  tableindex : Int × Int
  model : Option (TableModel (Option ℚ))
deriving DecidableEq, Repr

/-- The three abstract processing steps of the spec's event loop: reading a
file, constructing the table display model, and completing a plot render
(`canvas.draw`). -/
inductive Step where
  | fileRead : Step
  | modelBuild : Step
  | render : Step
deriving DecidableEq, Repr

/-- Outcome of one user action: the exception it raised (if any), the
widget state when it returned or when the exception escaped, and the trace
of completed processing steps. -/
structure ActionResult where
  err : Option PyErr
  st : WidgetState
  trace : List Step
deriving DecidableEq, Repr

/-- Embedding of `Widget.replot` (`src/plotter_main.py` lines 221-238).
Lines 223-228 read six line-edit texts; lines 229-230 run
`float(shift_y_values)` and `float(multiply_y_values)` (a `ValueError` on
non-numeric text); line 231 then evaluates `self.num_files`, an attribute
no method of `Widget` ever assigns, so an `AttributeError` escapes before
the normalization loop, `self.plot.set_data`, the label updates and
`self.canvas.draw()` are reached.  No attribute of the widget has been
written at that point, so the state is returned unchanged and no
file-read, model-build or render step completes. -/
def replot (st : WidgetState) (shiftText multiplyText : String) : ActionResult :=
  match parseFloat shiftText with
  | none => { err := some .valueError, st := st, trace := [] }
  | some _ =>
    match parseFloat multiplyText with
    | none => { err := some .valueError, st := st, trace := [] }
    | some _ => { err := some (.attributeError "num_files"), st := st, trace := [] }

/-- Embedding of `Widget.table_recenter` (`src/plotter_main.py` lines
240-248): parse the two line edits with `int` (`ValueError` on bad text,
the column text first), store `self.tableindex = [int(col), int(row)]`,
build a fresh `CustomTableModel` from the unchanged `self.data` and install
it with `setModel`.  The method contains no file read and no plot render
call. -/
def table_recenter (st : WidgetState) (colText rowText : String) : ActionResult :=
  match parseIntPy colText with
  | none => { err := some .valueError, st := st, trace := [] }
  | some c =>
    match parseIntPy rowText with
    | none => { err := some .valueError, st := st, trace := [] }
    | some r =>
      let st1 := { st with tableindex := (c, r) }
      match customTableModelInit st1.data (some (c, r)) with
      | .error e => { err := some e, st := st1, trace := [] }
      | .ok m =>
        { err := none, st := { st1 with model := some m }, trace := [.modelBuild] }

/-- Embedding of `Widget.new_csv` (`src/plotter_main.py` lines 259-273):
`self.data = read_data(filename)` and `self.shape = np.shape(self.data)`
replace the stored array wholesale; `CustomTableModel(self.data, None)` is
then built (for data with more than 100 rows this raises `TypeError` by
subscripting `None`, leaving `self.model` unchanged); finally line 269
evaluates `self.plot.set_data` — `self.plot` is the bound `plot` method,
which has no `set_data` attribute — so an `AttributeError` escapes and the
`self.canvas.draw()` render on line 272 is never reached. -/
def new_csv (st : WidgetState) (fileLines : List (List String)) : ActionResult :=
  match read_data fileLines with
  | .error e => { err := some e, st := st, trace := [] }
  | .ok d =>
    let st1 := { st with data := d, shape := (d.nrows, d.ncols) }
    match customTableModelInit d (none : Option (Int × Int)) with
    | .error e => { err := some e, st := st1, trace := [.fileRead] }
    | .ok m =>
      { err := some (.attributeError "set_data")
        st := { st1 with model := some m }
        trace := [.fileRead, .modelBuild] }

/-- A sample row of `n` zero entries, used for concrete instances. -/
def rowOf (n : Nat) : List (Option ℚ) := List.replicate n (some 0)

/-- A sample rectangular `m × n` array of zeros, used for concrete
instances. -/
def gridOf (m n : Nat) : Arr (Option ℚ) := ⟨m, n, List.replicate m (rowOf n)⟩

/-- A sample widget state: a 2×2 loaded array whose second column is
`[1, 2]`, the initial table index, no installed model. -/
def sampleState : WidgetState :=
  { data := ⟨2, 2, [[some 0, some 1], [some 0, some 2]]⟩
    shape := (2, 2)
    tableindex := (51, 51)
    model := none }

/-- A sample 3×3 numeric grid with axis headers in the first row and
column, used as the contour-plot witness input. -/
def grid3 : Arr ℚ := ⟨3, 3, [[0, 1, 2], [10, 5, 7], [20, 3, 4]]⟩

/-- Lengths of Python slices: the normalised bounds measure the slice. -/
theorem pySlice_length (xs : List α) (lo hi : Int) :
    (pySlice xs lo hi).length = pyIdx hi xs.length - pyIdx lo xs.length := by
  have hhi : pyIdx hi xs.length ≤ xs.length := by
    unfold pyIdx
    split
    · omega
    · omega
  simp [pySlice, List.length_drop, List.length_take]
  omega

/-- Normalisation of an in-range nonnegative slice bound. -/
theorem pyIdx_of_nonneg_le (i : Int) (n : Nat) (h0 : 0 ≤ i) (hn : i ≤ (n : Int)) :
    pyIdx i n = i.toNat := by
  unfold pyIdx
  split
  · omega
  · omega

/-- A Python slice with nonnegative in-range bounds is the ordinary
`drop`/`take` window. -/
theorem pySlice_of_bounds (xs : List α) (lo hi : Int) (h0 : 0 ≤ lo) (hlh : lo ≤ hi)
    (hhn : hi ≤ (xs.length : Int)) :
    pySlice xs lo hi = (xs.drop lo.toNat).take (hi.toNat - lo.toNat) := by
  unfold pySlice
  rw [pyIdx_of_nonneg_le lo xs.length h0 (le_trans hlh hhn),
    pyIdx_of_nonneg_le hi xs.length (le_trans h0 hlh) hhn]
  exact List.drop_take _ _ _

/-- A Python slice from `1` to the length of the list drops the head. -/
theorem pySlice_one_length (xs : List α) (n : Int) (hn : n = (xs.length : Int)) :
    pySlice xs 1 n = xs.drop 1 := by
  subst hn
  rcases xs with _ | ⟨a, tl⟩
  · simp [pySlice, pyIdx]
  · rw [pySlice_of_bounds (a :: tl) 1 ((a :: tl).length : Int) (by omega)
      (by rw [List.length_cons]; push_cast; omega) (le_refl _)]
    simp

/-- C3 (counterexample).  The claim says a divide-by-max normalization of
the y column is applied in place before plotting by `replot`.  On the
concrete state `sampleState` (y column `[1, 2]`), `replot` with numeric
inputs raises `AttributeError` at `self.num_files` and returns with the
stored data — and the whole widget state — untouched: no normalization is
ever applied and no plotting happens. -/
theorem c3_counterexample :
    (replot sampleState "0" "1").err = some (PyErr.attributeError "num_files") ∧
    (replot sampleState "0" "1").st = sampleState := by
  decide

/-- C3 (amended).  `Widget.replot` never mutates any widget attribute — in
particular the loaded source data — because it raises before its first
assignment: either a `ValueError` from `float(...)` on non-numeric input
text, or the `AttributeError` on `self.num_files` (an attribute `Widget`
never assigns).  So after any replot attempt the stored data is exactly
the data as read from the file. -/
theorem c3_replot_never_mutates (st : WidgetState) (s m : String) :
    (replot st s m).st = st ∧ (replot st s m).err.isSome = true := by
  cases hs : parseFloat s <;> cases hm : parseFloat m <;> simp [replot, hs, hm]

/-- C4 (code evaluated at the failing input).  `read_data` on a file whose
first line is the non-numeric header `x y` followed by the numeric line
`1 2` returns BOTH rows: the header row survives as a row of `nan`
(`none`) values instead of being removed, contradicting `read_data`'s own
docstring ("It removes all rows with strings") and the claim. -/
theorem c4_read_data_keeps_nonnumeric_rows :
    read_data [["x", "y"], ["1", "2"]] =
      .ok { nrows := 2, ncols := 2, rows := [[none, none], [some 1, some 2]] } ∧
    ¬ read_data [["x", "y"], ["1", "2"]] =
        .ok { nrows := 1, ncols := 2, rows := [[some 1, some 2]] } := by
  decide

/-- C5 (code evaluated at the failing input).  With any loaded dataset and
the numeric inputs shift `0` and factor `1`, `Widget.replot` does not
complete and updates no plotted series: it raises `AttributeError` at
`self.num_files` (never assigned anywhere in `Widget`), before the
normalization loop and the `set_data` call. -/
theorem c5_replot_raises (st : WidgetState) :
    (replot st "0" "1").err = some (PyErr.attributeError "num_files") ∧
    (replot st "0" "1").trace = [] := by
  have h0 : parseFloat "0" = some 0 := by decide
  have h1 : parseFloat "1" = some 1 := by decide
  simp [replot, h0, h1]

/-- C6.  Between two imports the stored array is never reshaped: a
table-recenter leaves `self.data` untouched (whatever the center texts),
a replot attempt leaves `self.data` untouched, and a successful read in
`new_csv` replaces `self.data` wholesale with exactly `read_data` of the
newly chosen file (even though `new_csv` raises later, the assignment has
already happened). -/
theorem c6_shape_fixed (st : WidgetState) (ct rt s m : String)
    (lines : List (List String)) :
    (table_recenter st ct rt).st.data = st.data ∧
    (replot st s m).st.data = st.data ∧
    ∀ d, read_data lines = .ok d → (new_csv st lines).st.data = d := by
  refine ⟨?_, ?_, ?_⟩
  · cases hc : parseIntPy ct with
    | none => simp [table_recenter, hc]
    | some c =>
      cases hr : parseIntPy rt with
      | none => simp [table_recenter, hc, hr]
      | some r =>
        cases hm2 : customTableModelInit st.data (some (c, r)) <;>
          simp [table_recenter, hc, hr, hm2]
  · cases hs : parseFloat s <;> cases hm2 : parseFloat m <;> simp [replot, hs, hm2]
  · intro d hd
    cases hm2 : customTableModelInit d (none : Option (Int × Int)) <;>
      simp [new_csv, hd, hm2]

/-- C6 (witness).  The invariants evaluated at a concrete state and a
concrete one-line file. -/
theorem c6_witness :
    (table_recenter sampleState "60" "60").st.data = sampleState.data ∧
    (new_csv sampleState [["3"]]).st.data = ⟨1, 1, [[some 3]]⟩ := by
  have h := c6_shape_fixed sampleState "60" "60" "0" "1" [["3"]]
  exact ⟨h.1, h.2.2 _ (by decide)⟩

/-- C9.  When the freshly read array has more than 100 rows, the model
constructor called by `new_csv` with `tableindex = None` takes the
windowing branch and subscripts `None`: constructing the model raises
`TypeError` instead of producing a centered window, and that error
escapes from `new_csv`. -/
theorem c9_new_csv_none_index_raises (st : WidgetState)
    (lines : List (List String)) (d : Arr (Option ℚ))
    (hd : read_data lines = .ok d) (hn : 100 < d.nrows) :
    customTableModelInit d (none : Option (Int × Int)) = .error .typeError ∧
    (new_csv st lines).err = some PyErr.typeError := by
  have hinit : customTableModelInit d (none : Option (Int × Int)) = .error .typeError := by
    unfold customTableModelInit
    rw [if_neg (by omega)]
  exact ⟨hinit, by simp [new_csv, hd, hinit]⟩

/-- C9 (witness).  A concrete 101-line numeric file triggers the
`TypeError`. -/
theorem c9_witness :
    customTableModelInit (⟨101, 1, List.replicate 101 [some 1]⟩ : Arr (Option ℚ))
        (none : Option (Int × Int)) = .error .typeError ∧
    (new_csv sampleState (List.replicate 101 ["1"])).err = some PyErr.typeError :=
  c9_new_csv_none_index_raises sampleState (List.replicate 101 ["1"])
    ⟨101, 1, List.replicate 101 [some 1]⟩ (by decide) (by decide)

/-- C10.  For an array with at most 100 rows the constructor's `pass`
branch leaves `lower_row`, `upper_row`, `lower_col` and `upper_col`
unassigned, and then every `headerData` query with the display role —
horizontal or vertical — raises an `AttributeError`. -/
theorem c10_header_raises_when_small {α : Type} (d : Arr α)
    (ti : Option (Int × Int)) (h : d.nrows ≤ 100) :
    ∃ m, customTableModelInit d ti = .ok m ∧
      m.lower_row = none ∧ m.upper_row = none ∧
      m.lower_col = none ∧ m.upper_col = none ∧
      ∀ (sec : Nat) (o : Orientation),
        ∃ s, headerData m sec o Role.display = .error (.attributeError s) := by
  refine ⟨{ tabledata := d, tableindex := ti
            lower_row := none, upper_row := none
            lower_col := none, upper_col := none
            row_count := d.nrows, column_count := d.ncols }, ?_, rfl, rfl, rfl, rfl, ?_⟩
  · unfold customTableModelInit
    rw [if_pos (by omega)]
  · intro sec o
    cases o
    · exact ⟨"lower_col", rfl⟩
    · exact ⟨"lower_row", rfl⟩

/-- A Python slice is always a `drop`-then-`take` window at the normalised
bounds, by the `drop`/`take` exchange law. -/
theorem pySlice_eq_drop_take (xs : List α) (lo hi : Int) :
    pySlice xs lo hi =
      (xs.drop (pyIdx lo xs.length)).take (pyIdx hi xs.length - pyIdx lo xs.length) :=
  List.drop_take _ _ _

/-- The first fold of the levels computation returns a minimum candidate
that is one of the folded values. -/
theorem foldl_min_mem {α : Type} [LinearOrder α] (l : List α) (a : α) :
    l.foldl min a ∈ a :: l := by
  induction l generalizing a with
  | nil => simp
  | cons b l ih =>
    simp only [List.foldl_cons]
    rcases List.mem_cons.1 (ih (min a b)) with h1 | h1
    · rw [h1]
      rcases min_choice a b with hab | hab <;> rw [hab]
      · exact List.mem_cons_self _ _
      · exact List.mem_cons_of_mem _ (List.mem_cons_self _ _)
    · exact List.mem_cons_of_mem _ (List.mem_cons_of_mem _ h1)

/-- The fold with `min` is a lower bound of all folded values. -/
theorem foldl_min_le {α : Type} [LinearOrder α] (l : List α) (a : α) :
    ∀ b ∈ a :: l, l.foldl min a ≤ b := by
  induction l generalizing a with
  | nil =>
    intro b hb
    simp only [List.mem_singleton] at hb
    simp [hb]
  | cons c l ih =>
    intro b hb
    simp only [List.foldl_cons]
    rcases List.mem_cons.1 hb with h1 | hb1
    · rw [h1]
      exact le_trans (ih (min a c) _ (List.mem_cons_self _ _)) (min_le_left _ _)
    rcases List.mem_cons.1 hb1 with h2 | hb2
    · rw [h2]
      exact le_trans (ih (min a c) _ (List.mem_cons_self _ _)) (min_le_right _ _)
    · exact ih (min a c) _ (List.mem_cons_of_mem _ hb2)

/-- The fold with `max` returns one of the folded values. -/
theorem foldl_max_mem {α : Type} [LinearOrder α] (l : List α) (a : α) :
    l.foldl max a ∈ a :: l := by
  induction l generalizing a with
  | nil => simp
  | cons b l ih =>
    simp only [List.foldl_cons]
    rcases List.mem_cons.1 (ih (max a b)) with h1 | h1
    · rw [h1]
      rcases max_choice a b with hab | hab <;> rw [hab]
      · exact List.mem_cons_self _ _
      · exact List.mem_cons_of_mem _ (List.mem_cons_self _ _)
    · exact List.mem_cons_of_mem _ (List.mem_cons_of_mem _ h1)

/-- The fold with `max` is an upper bound of all folded values. -/
theorem le_foldl_max {α : Type} [LinearOrder α] (l : List α) (a : α) :
    ∀ b ∈ a :: l, b ≤ l.foldl max a := by
  induction l generalizing a with
  | nil =>
    intro b hb
    simp only [List.mem_singleton] at hb
    simp [hb]
  | cons c l ih =>
    intro b hb
    simp only [List.foldl_cons]
    rcases List.mem_cons.1 hb with h1 | hb1
    · rw [h1]
      exact le_trans (le_max_left _ _) (ih (max a c) _ (List.mem_cons_self _ _))
    rcases List.mem_cons.1 hb1 with h2 | hb2
    · rw [h2]
      exact le_trans (le_max_right _ _) (ih (max a c) _ (List.mem_cons_self _ _))
    · exact ih (max a c) _ (List.mem_cons_of_mem _ hb2)

/-- C10 (witness).  On the concrete 2×2 loaded array, a display-role
header query raises. -/
theorem c10_witness :
    ∃ m, customTableModelInit sampleState.data (none : Option (Int × Int)) = .ok m ∧
      ∃ s, headerData m 0 Orientation.horizontal Role.display =
        .error (.attributeError s) := by
  obtain ⟨m, hm, _, _, _, _, hq⟩ :=
    c10_header_raises_when_small sampleState.data none (by decide)
  exact ⟨m, hm, hq 0 Orientation.horizontal⟩

/-- C1 (counterexample).  On a loaded 101×101 array with center index
`[51, 10]` (center row 10, within 50 of the top edge), the table model's
visible data is NOT a 100×100 sub-block: Python's slice `[-40:60]`
resolves the negative lower bound from the end of the array and yields
zero rows. -/
theorem c1_counterexample :
    (customTableModelInit (gridOf 101 101) (some (51, 10))).map
        (fun m => (m.row_count, m.column_count)) = .ok (0, 100) ∧
    ¬ (customTableModelInit (gridOf 101 101) (some (51, 10))).map
        (fun m => (m.row_count, m.column_count)) = .ok (100, 100) := by
  decide

/-- C1 (amended).  For a loaded rectangular array with more than 100 rows
and a center index `[col, row]` lying at least 50 from every edge
(`50 ≤ row`, `row + 50 ≤ nrows`, `50 ≤ col`, `col + 50 ≤ ncols`), the
model's visible data is exactly the 100×100 sub-block of rows
`row-50 ≤ i < row+50` and columns `col-50 ≤ j < col+50`; for arrays with
100 or fewer rows the full array is shown. -/
theorem c1_windowed {α : Type} (d : Arr α) (c r : Int)
    (hlen : d.rows.length = d.nrows)
    (hwf : ∀ row ∈ d.rows, row.length = d.ncols) :
    (100 < d.nrows → 50 ≤ r → r + 50 ≤ (d.nrows : Int) → 50 ≤ c →
      c + 50 ≤ (d.ncols : Int) →
      ∃ m, customTableModelInit d (some (c, r)) = .ok m ∧
        m.row_count = 100 ∧ m.column_count = 100 ∧
        m.tabledata.rows =
          ((d.rows.drop (r - 50).toNat).take 100).map
            (fun row => (row.drop (c - 50).toNat).take 100)) ∧
    (d.nrows ≤ 100 →
      ∀ ti, ∃ m, customTableModelInit d ti = .ok m ∧ m.tabledata = d) := by
  constructor
  · intro hn hr1 hr2 hc1 hc2
    have hnot : ¬ d.nrows < 101 := by omega
    have hrow : pySlice d.rows (r - 50) (r + 50) =
        (d.rows.drop (r - 50).toNat).take 100 := by
      rw [pySlice_of_bounds d.rows (r - 50) (r + 50) (by omega) (by omega)
        (by rw [hlen]; omega)]
      congr 1
      omega
    refine ⟨{ tabledata := d.slice2 (r - 50) (r + 50) (c - 50) (c + 50)
              tableindex := some (c, r)
              lower_row := some (r - 50), upper_row := some (r + 50)
              lower_col := some (c - 50), upper_col := some (c + 50)
              row_count := (d.slice2 (r - 50) (r + 50) (c - 50) (c + 50)).nrows
              column_count := (d.slice2 (r - 50) (r + 50) (c - 50) (c + 50)).ncols },
            ?_, ?_, ?_, ?_⟩
    · unfold customTableModelInit
      rw [if_neg hnot]
    · show pyIdx (r + 50) d.nrows - pyIdx (r - 50) d.nrows = 100
      rw [pyIdx_of_nonneg_le _ _ (by omega) (by omega),
        pyIdx_of_nonneg_le _ _ (by omega) (by omega)]
      omega
    · show pyIdx (c + 50) d.ncols - pyIdx (c - 50) d.ncols = 100
      rw [pyIdx_of_nonneg_le _ _ (by omega) (by omega),
        pyIdx_of_nonneg_le _ _ (by omega) (by omega)]
      omega
    · show (pySlice d.rows (r - 50) (r + 50)).map
          (fun row => pySlice row (c - 50) (c + 50)) = _
      rw [hrow]
      apply List.map_congr_left
      intro row hmem
      have hl : row.length = d.ncols :=
        hwf row (List.mem_of_mem_drop (List.mem_of_mem_take hmem))
      rw [pySlice_of_bounds row (c - 50) (c + 50) (by omega) (by omega)
        (by rw [hl]; omega)]
      congr 1
      omega
  · intro hle ti
    refine ⟨{ tabledata := d, tableindex := ti
              lower_row := none, upper_row := none
              lower_col := none, upper_col := none
              row_count := d.nrows, column_count := d.ncols }, ?_, rfl⟩
    unfold customTableModelInit
    rw [if_pos (by omega)]

/-- C1 (witness).  A 101×101 array centered at `[51, 51]` really is
windowed to the 100×100 sub-block starting at row 1, column 1. -/
theorem c1_witness :
    ∃ m, customTableModelInit (gridOf 101 101) (some (51, 51)) = .ok m ∧
      m.row_count = 100 ∧ m.column_count = 100 ∧
      m.tabledata.rows =
        (((gridOf 101 101).rows.drop ((51 : Int) - 50).toNat).take 100).map
          (fun row => (row.drop ((51 : Int) - 50).toNat).take 100) :=
  (c1_windowed (gridOf 101 101) 51 51 (by decide) (by decide)).1
    (by decide) (by decide) (by decide) (by decide) (by decide)

/-- C2 (counterexample).  On a loaded 101×101 array with center index
`[10, 51]` (center column 10, within 50 of the left edge), the window is
not clamped to the array: the column slice `[-40:60]` resolves to an
empty range, so the displayed sub-block has zero columns — it is empty,
not a clamped in-bounds window. -/
theorem c2_counterexample :
    (customTableModelInit (gridOf 101 101) (some (10, 51))).map
        (fun m => (m.row_count, m.column_count)) = .ok (100, 0) ∧
    (customTableModelInit (gridOf 101 101) (some (10, 51))).map
        (fun m => m.tabledata.rows.flatten) = .ok [] := by
  decide

/-- C2 (amended).  The lower window bounds are not clamped: a center
within 50 of the top/left edge makes Python resolve the negative lower
bound from the array's end, which can empty the window (see the
counterexample).  What does hold: the upper bounds are implicitly clamped
by Python slicing, and for every center with `50 ≤ row < nrows` and
`50 ≤ col < ncols` the displayed window is non-empty and lies entirely
within the source array — displayed row `i` is a contiguous segment,
starting at column `col - 50`, of source row `row - 50 + i`. -/
theorem c2_window_in_bounds {α : Type} (d : Arr α) (c r : Int)
    (hlen : d.rows.length = d.nrows)
    (hwf : ∀ row ∈ d.rows, row.length = d.ncols)
    (hn : 100 < d.nrows)
    (hr1 : 50 ≤ r) (hr2 : r < (d.nrows : Int))
    (hc1 : 50 ≤ c) (hc2 : c < (d.ncols : Int)) :
    ∃ m, customTableModelInit d (some (c, r)) = .ok m ∧
      0 < m.row_count ∧ 0 < m.column_count ∧
      ∀ i, i < m.row_count →
        ∃ srcRow, d.rows.get? ((r - 50).toNat + i) = some srcRow ∧
          m.tabledata.rows.get? i =
            some ((srcRow.drop (c - 50).toNat).take m.column_count) := by
  have hnot : ¬ d.nrows < 101 := by omega
  have hA : pyIdx (r - 50) d.nrows = (r - 50).toNat :=
    pyIdx_of_nonneg_le _ _ (by omega) (by omega)
  have hB : pyIdx (r + 50) d.nrows = min (r + 50).toNat d.nrows := by
    unfold pyIdx
    rw [if_neg (by omega)]
  have hC : pyIdx (c - 50) d.ncols = (c - 50).toNat :=
    pyIdx_of_nonneg_le _ _ (by omega) (by omega)
  have hD : pyIdx (c + 50) d.ncols = min (c + 50).toNat d.ncols := by
    unfold pyIdx
    rw [if_neg (by omega)]
  refine ⟨{ tabledata := d.slice2 (r - 50) (r + 50) (c - 50) (c + 50)
            tableindex := some (c, r)
            lower_row := some (r - 50), upper_row := some (r + 50)
            lower_col := some (c - 50), upper_col := some (c + 50)
            row_count := (d.slice2 (r - 50) (r + 50) (c - 50) (c + 50)).nrows
            column_count := (d.slice2 (r - 50) (r + 50) (c - 50) (c + 50)).ncols },
          ?_, ?_, ?_, ?_⟩
  · unfold customTableModelInit
    rw [if_neg hnot]
  · show 0 < pyIdx (r + 50) d.nrows - pyIdx (r - 50) d.nrows
    rw [hA, hB]
    omega
  · show 0 < pyIdx (c + 50) d.ncols - pyIdx (c - 50) d.ncols
    rw [hC, hD]
    omega
  · intro i hi
    dsimp only [Arr.slice2] at hi ⊢
    have hidx : (r - 50).toNat + i < d.rows.length := by
      rw [hlen]
      rw [hA, hB] at hi
      omega
    refine ⟨d.rows.get ⟨(r - 50).toNat + i, hidx⟩, List.get?_eq_get hidx, ?_⟩
    have hi' : i < pyIdx (r + 50) d.rows.length - pyIdx (r - 50) d.rows.length := by
      rw [hlen]
      exact hi
    have hA' : pyIdx (r - 50) d.rows.length = (r - 50).toNat := by
      rw [hlen]
      exact hA
    rw [List.get?_map]
    rw [pySlice_eq_drop_take d.rows (r - 50) (r + 50)]
    rw [List.get?_take hi']
    rw [List.get?_drop, hA', List.get?_eq_get hidx]
    have hmem : d.rows.get ⟨(r - 50).toNat + i, hidx⟩ ∈ d.rows := List.get_mem _ _ _
    have hlrow : (d.rows.get ⟨(r - 50).toNat + i, hidx⟩).length = d.ncols := hwf _ hmem
    simp only [Option.map_some']
    congr 1
    rw [pySlice_eq_drop_take _ (c - 50) (c + 50), hlrow, hC]

/-- C2 (witness).  On a 101×101 array centered at `[50, 51]` the window
is non-empty and each displayed row is the expected in-bounds segment of
the corresponding source row. -/
theorem c2_witness :
    ∃ m, customTableModelInit (gridOf 101 101) (some (50, 51)) = .ok m ∧
      0 < m.row_count ∧ 0 < m.column_count ∧
      ∀ i, i < m.row_count →
        ∃ srcRow, (gridOf 101 101).rows.get? (((51 : Int) - 50).toNat + i) = some srcRow ∧
          m.tabledata.rows.get? i =
            some ((srcRow.drop ((50 : Int) - 50).toNat).take m.column_count) :=
  c2_window_in_bounds (gridOf 101 101) 50 51 (by decide) (by decide) (by decide)
    (by decide) (by decide) (by decide) (by decide)

/-- C7.  On a rectangular numeric grid with at least two rows and two
columns, the contour call uses the first column minus the corner entry as
the x coordinates, the first row minus the corner entry as the y
coordinates, and the sub-grid of rows 1.. and columns 1.. as the plotted
values; the two inputs fed to the level locator are precisely the minimum
and the maximum of that sub-grid. -/
theorem c7_contour_roles (d : Arr ℚ)
    (hlen : d.rows.length = d.nrows)
    (hwf : ∀ row ∈ d.rows, row.length = d.ncols)
    (h2 : 2 ≤ d.nrows) (h3 : 2 ≤ d.ncols) :
    ∃ pc, plot d = .ok pc ∧
      pc.x = (d.rows.drop 1).map (fun row => row.headD 0) ∧
      pc.y = (d.rows.headD []).drop 1 ∧
      pc.z.rows = (d.rows.drop 1).map (fun row => row.drop 1) ∧
      pc.vmin ∈ pc.z.rows.flatten ∧ (∀ v ∈ pc.z.rows.flatten, pc.vmin ≤ v) ∧
      pc.vmax ∈ pc.z.rows.flatten ∧ (∀ v ∈ pc.z.rows.flatten, v ≤ pc.vmax) := by
  have hzrows : (d.slice2 1 d.nrows 1 d.ncols).rows =
      (d.rows.drop 1).map (fun row => row.drop 1) := by
    show (pySlice d.rows 1 d.nrows).map (fun row => pySlice row 1 d.ncols) = _
    rw [pySlice_one_length d.rows (d.nrows : Int) (by rw [hlen])]
    apply List.map_congr_left
    intro row hmem
    exact pySlice_one_length row (d.ncols : Int)
      (by rw [hwf row (List.mem_of_mem_drop hmem)])
  have hlen1 : 1 ≤ (d.rows.drop 1).length := by
    rw [List.length_drop, hlen]
    omega
  have hdropne : d.rows.drop 1 ≠ [] := by
    intro h
    rw [h] at hlen1
    simp at hlen1
  obtain ⟨row1, rest, hrows1⟩ := List.exists_cons_of_ne_nil hdropne
  have hrow1mem : row1 ∈ d.rows :=
    List.mem_of_mem_drop (l := d.rows) (n := 1)
      (by rw [hrows1]; exact List.mem_cons_self _ _)
  have hrow1ne : row1.drop 1 ≠ [] := by
    intro h
    have hln := congrArg List.length h
    rw [List.length_drop, hwf _ hrow1mem] at hln
    simp at hln
    omega
  have hne : (d.slice2 1 d.nrows 1 d.ncols).rows.flatten ≠ [] := by
    rw [hzrows]
    intro h
    exact hrow1ne (List.flatten_eq_nil_iff.1 h _
      (List.mem_map_of_mem _ (by rw [hrows1]; exact List.mem_cons_self _ _)))
  obtain ⟨v, vs, hflat⟩ := List.exists_cons_of_ne_nil hne
  have hplot : plot d = .ok
      { x := (pySlice d.rows 1 d.nrows).map (fun row => row.headD 0)
        y := pySlice (d.rows.headD []) 1 d.ncols
        z := d.slice2 1 d.nrows 1 d.ncols
        vmin := vs.foldl min v, vmax := vs.foldl max v } := by
    unfold plot
    rw [hflat]
  have hrowsne : d.rows ≠ [] := by
    intro h
    rw [h] at hlen
    simp at hlen
    omega
  obtain ⟨r0, rows', hr0⟩ := List.exists_cons_of_ne_nil hrowsne
  refine ⟨_, hplot, ?_, ?_, hzrows, ?_, ?_, ?_, ?_⟩
  · show (pySlice d.rows 1 d.nrows).map (fun row => row.headD 0) = _
    rw [pySlice_one_length d.rows (d.nrows : Int) (by rw [hlen])]
  · show pySlice (d.rows.headD []) 1 d.ncols = _
    rw [hr0]
    simp only [List.headD_cons]
    exact pySlice_one_length r0 (d.ncols : Int)
      (by rw [hwf r0 (by rw [hr0]; exact List.mem_cons_self _ _)])
  · show vs.foldl min v ∈ (d.slice2 1 d.nrows 1 d.ncols).rows.flatten
    rw [hflat]
    exact foldl_min_mem vs v
  · intro w hw
    rw [hflat] at hw
    exact foldl_min_le vs v w hw
  · show vs.foldl max v ∈ (d.slice2 1 d.nrows 1 d.ncols).rows.flatten
    rw [hflat]
    exact foldl_max_mem vs v
  · intro w hw
    rw [hflat] at hw
    exact le_foldl_max vs v w hw

/-- C7 (witness).  The contour roles evaluated on the concrete 3×3 grid
`grid3`. -/
theorem c7_witness :
    ∃ pc, plot grid3 = .ok pc ∧
      pc.x = (grid3.rows.drop 1).map (fun row => row.headD 0) ∧
      pc.y = (grid3.rows.headD []).drop 1 ∧
      pc.z.rows = (grid3.rows.drop 1).map (fun row => row.drop 1) ∧
      pc.vmin ∈ pc.z.rows.flatten ∧ (∀ v ∈ pc.z.rows.flatten, pc.vmin ≤ v) ∧
      pc.vmax ∈ pc.z.rows.flatten ∧ (∀ v ∈ pc.z.rows.flatten, v ≤ pc.vmax) :=
  c7_contour_roles grid3 (by decide) (by decide) (by decide) (by decide)

end Plotter
